import Mathlib

/-!
Verification of the EI ASSET data loader (`load_data.py`).

This file gives a shallow embedding of the data-loading pipeline:
CSV parsing of the three source families (student totals, skill taxonomy,
question-level responses), identifier normalization, per-student skill
performance, class statistics and report building — and proves the
claimed properties about them.

Modelling conventions:
- Python floats are modelled as exact rationals (`ℚ`); Python `round`
  (banker's rounding, half to even) is modelled on `ℚ`.
- A CSV cell is modelled by `Cell`: a numeric value, a string, or NaN.
- A file that raises during parsing (missing header sentinel, decode
  error, bad filename) is modelled as `none` in a directory listing.
- Python exceptions inside the build functions are modelled with
  `Except String`; `.error` means an uncaught exception propagates.
- Strings are handled at ASCII granularity (the sources are ASCII CSV
  exports); Python `str.strip`/`\s` whitespace is the ASCII whitespace
  set.
-/

unseal Rat.add Rat.mul Rat.inv Rat.sub

deriving instance DecidableEq for Except

/-! ### Python string primitives -/

/-- ASCII whitespace as stripped by Python `str.strip()` and matched by
regex `\s`. -/
def isPySpace (c : Char) : Bool :=
  c = ' ' || c = '\t' || c = '\n' || c = '\r' || c = '\x0b' || c = '\x0c'

/-- Python `str.strip()` on a character list. -/
def stripList (cs : List Char) : List Char :=
  ((cs.dropWhile isPySpace).reverse.dropWhile isPySpace).reverse

/-- Python `str.strip()`. -/
def pyStrip (s : String) : String := String.mk (stripList s.toList)

/-- Lowercase every character (Python `str.lower()` on ASCII). -/
def toLowerStr (s : String) : String := String.mk (s.toList.map Char.toLower)

/-- Lexicographic (code-point) order on character lists, as Python
string comparison uses. -/
def charListLe : List Char → List Char → Bool
  | [], _ => true
  | _ :: _, [] => false
  | a :: as, b :: bs =>
    if a < b then true
    else if b < a then false
    else charListLe as bs

/-- Does `hay` start with `needle`? -/
def leadsWith : List Char → List Char → Bool
  | [], _ => true
  | _ :: _, [] => false
  | a :: as, b :: bs => a = b && leadsWith as bs

/-- Does `needle` occur as a contiguous substring of the second list?
Models `pandas.Series.str.contains` with a plain-text alternative. -/
def strHasSub (needle : List Char) : List Char → Bool
  | [] => needle.isEmpty
  | c :: cs => leadsWith needle (c :: cs) || strHasSub needle cs

/-- Numeric value of a digit string (most significant digit first). -/
def digitsToNat (cs : List Char) : ℕ :=
  cs.foldl (fun n c => 10 * n + (c.toNat - '0'.toNat)) 0

/-- Split a character list on a separator character, keeping empty
segments (Python `str.split(',')` semantics). -/
def splitOnChar (sep : Char) : List Char → List (List Char)
  | [] => [[]]
  | c :: cs =>
    let r := splitOnChar sep cs
    if c = sep then [] :: r
    else
      match r with
      | [] => [[c]]
      | g :: gs => (c :: g) :: gs

/-- ASCII digit, as matched by regex `\\d` and `str.isdigit()` (ASCII
view). -/
def isDigitChar (c : Char) : Bool := '0' <= c && c <= '9'

/-- Python `str.isdigit()` for ASCII: nonempty and all digits. -/
def pyIsDigitStr (cs : List Char) : Bool := !cs.isEmpty && cs.all isDigitChar

/-- Python `int(s)` on a string: optional surrounding whitespace, an
optional sign, then one or more digits; `none` models `ValueError`.
(Underscore digit grouping and other exotic accepted forms are not
modelled.) -/
def pyParseInt (s : String) : Option ℤ :=
  match stripList s.toList with
  | '+' :: rest => if pyIsDigitStr rest then some ((digitsToNat rest : ℤ)) else none
  | '-' :: rest => if pyIsDigitStr rest then some (-(digitsToNat rest : ℤ)) else none
  | cs => if pyIsDigitStr cs then some ((digitsToNat cs : ℤ)) else none

/-- Decimal value `intPart.fracPart`. -/
def decToRat (intPart fracPart : List Char) : ℚ :=
  (digitsToNat intPart : ℚ) + (digitsToNat fracPart : ℚ) / ((10 : ℚ) ^ fracPart.length)

/-- Unsigned decimal literal: digits, optionally followed by a point and
more digits (at least one digit overall). -/
def parseUnsignedDec (cs : List Char) : Option ℚ :=
  let ip := cs.takeWhile isDigitChar
  match cs.dropWhile isDigitChar with
  | [] => if ip.isEmpty then none else some (digitsToNat ip : ℚ)
  | '.' :: fp =>
    if fp.all isDigitChar && !(ip.isEmpty && fp.isEmpty) then some (decToRat ip fp)
    else none
  | _ => none

/-- Numeric coercion of a string as `pandas.to_numeric` accepts it:
optional whitespace, optional sign, decimal literal. (Exponent notation
is not modelled.) -/
def pyParseDec (s : String) : Option ℚ :=
  match stripList s.toList with
  | '+' :: rest => parseUnsignedDec rest
  | '-' :: rest => (parseUnsignedDec rest).map (fun q => -q)
  | cs => parseUnsignedDec cs

/-- Truncation toward zero, as Python `int()` applied to a float. -/
def ratTrunc (q : ℚ) : ℤ := if 0 ≤ q then ⌊q⌋ else ⌈q⌉

/-- Python `round` rounds half to even (banker's rounding). -/
def roundHalfEven (x : ℚ) : ℤ :=
  let f := ⌊x⌋
  let r := x - (f : ℚ)
  if r < 1/2 then f
  else if r > 1/2 then f + 1
  else if f % 2 = 0 then f else f + 1

/-- Python `round(x, 1)`. -/
def round1 (x : ℚ) : ℚ := ((roundHalfEven (10 * x) : ℤ) : ℚ) / 10

/-! ### CSV cells -/

/-- A CSV cell as it appears in a parsed DataFrame: a numeric value, a
string, or a missing value (NaN). -/
inductive Cell where
  | num (q : ℚ)
  | str (s : String)
  | nan
deriving DecidableEq

/-- Whether and how `int(cell)` succeeds: numeric cells truncate toward
zero, strings must parse as integers, NaN raises (`none`). -/
def Cell.toIntOpt : Cell → Option ℤ
  | .num q => some (ratTrunc q)
  | .str s => pyParseInt s
  | .nan => none

/-- The `try: int(raw_score) except: 0` pattern of
`parse_student_performance_csv`. -/
def tryIntCell (c : Cell) : ℤ := (c.toIntOpt).getD 0

/-- Whether and how `pd.to_numeric(cell, errors='coerce')` yields a
number. -/
def Cell.toNumOpt : Cell → Option ℚ
  | .num q => some q
  | .str s => pyParseDec s
  | .nan => none

/-- The `pd.to_numeric(col, errors='coerce').fillna(0)` pattern of
`parse_skills_csv`. -/
def coerceNum (c : Cell) : ℚ := (c.toNumOpt).getD 0

/-! ### Data model (the dataclasses of `load_data.py`) -/

/-- Individual student performance (dataclass `StudentResult`).
The `skill_performance` dict is modelled as an association list in
insertion order with unique keys. -/
structure StudentResult where
  name : String
  score : ℤ
  total_questions : ℕ
  percentage : ℚ
  question_responses : List ℤ
  skill_performance : List (String × ℚ)
deriving DecidableEq

/-- Skill-wise class performance (dataclass `SkillPerformance`). -/
structure SkillPerformance where
  skill_name : String
  questions : List ℕ
  section_performance : ℚ
  school_performance : ℚ
deriving DecidableEq

/-- Complete report for a class-subject combination (dataclass
`ClassReport`). -/
structure ClassReport where
  class_section : String
  subject : String
  total_students : ℕ
  total_questions : ℕ
  class_average : ℚ
  class_median : ℚ
  students : List StudentResult
  skills : List SkillPerformance
deriving DecidableEq

/-! ### Identifier normalization -/

/-- Separator characters accepted between grade and section by the
regex `[\s\-]*` of `normalize_class_section`. -/
def isSecSep (c : Char) : Bool := isPySpace c || c = '-'

/-- ASCII letter, as matched by `[A-Za-z]`. -/
def isAsciiLetter (c : Char) : Bool := ('A' ≤ c && c ≤ 'Z') || ('a' ≤ c && c ≤ 'z')

/-- The regex match `^(\d+)[\s\-]*([A-Za-z])` of
`normalize_class_section`: a maximal run of leading digits, any run of
whitespace/hyphens, then one letter.  (The regex engine's greedy
matching cannot backtrack here: neither `[\s\-]` nor `[A-Za-z]` can
consume a digit, and `[A-Za-z]` cannot consume a separator.) -/
def matchGradeSection (cs : List Char) : Option (List Char × Char) :=
  if (cs.takeWhile isDigitChar).isEmpty then none
  else
    match (cs.dropWhile isDigitChar).dropWhile isSecSep with
    | [] => none
    | c :: _ => if isAsciiLetter c then some (cs.takeWhile isDigitChar, c) else none

/-- `normalize_class_section` from `load_data.py`. -/
def normalize_class_section (raw_class : String) : String :=
  match matchGradeSection (stripList raw_class.toList) with
  | some (digits, c) => String.mk (digits ++ '-' :: [c.toUpper])
  | none => String.mk (stripList raw_class.toList)

/-- `normalize_subject` from `load_data.py`. -/
def normalize_subject (raw_subject : String) : String :=
  let subject := pyStrip raw_subject
  if toLowerStr subject = "math" then "Maths" else subject

/-- `normalize_name` from `load_data.py`: uppercase, then remove spaces
and periods. -/
def normalize_name (name : String) : String :=
  String.mk ((name.toList.map Char.toUpper).filter (fun c => c ≠ ' ' && c ≠ '.'))

/-! ### Source extraction: student totals -/

/-- One student row in a (class, subject) slice of the combined totals
DataFrame, as produced by `parse_student_performance_csv`. -/
structure StudentRow where
  student_name : String
  score : ℤ
  total_questions : ℕ
  percentage : ℚ
  class_section : String
  subject : String
deriving DecidableEq

/-- A raw data row of a totals CSV below the header row.  The
`answers` cells of the `Q<integer>` columns are carried but — exactly as
in the source — never consulted when computing the score. -/
structure RawStudentRow where
  name : String
  total_score : Cell
  answers : List Cell
deriving DecidableEq

/-- A totals CSV file after the header row has been located: the class
and subject header cells, the number of `Q<integer>` columns, and the
data rows.  A file whose header row cannot be located is represented as
`none` at the directory level, never as a `TotalsFile`. -/
structure TotalsFile where
  class_row : String
  subject_row : String
  q_cols : ℕ
  data_rows : List RawStudentRow
deriving DecidableEq

/-- Summary / answer-key rows dropped by
`df['Student Name'].str.contains('Correct Answer|Avg Section|Avg School', case=False)`. -/
def isSummaryName (name : String) : Bool :=
  let l := name.toList.map Char.toLower
  strHasSub "correct answer".toList l || strHasSub "avg section".toList l ||
    strHasSub "avg school".toList l

/-- Row filter of `parse_student_performance_csv`: drop summary rows and
rows whose student name strips to the empty string. -/
def keepStudentRow (r : RawStudentRow) : Bool :=
  !isSummaryName r.name && !(stripList r.name.toList).isEmpty

/-- The percentage computed from the authoritative score:
`round((score / total_questions) * 100, 1) if total_questions > 0 else 0.0`. -/
def scorePercentage (score : ℤ) (total_questions : ℕ) : ℚ :=
  if 0 < total_questions then round1 (((score : ℚ) / (total_questions : ℚ)) * 100) else 0

/-- One output row of `parse_student_performance_csv`. -/
def mkStudentRow (cls subj : String) (tq : ℕ) (r : RawStudentRow) : StudentRow :=
  let score := tryIntCell r.total_score
  { student_name := pyStrip r.name
    score := score
    total_questions := tq
    percentage := scorePercentage score tq
    class_section := cls
    subject := subj }

/-- `parse_student_performance_csv` from `load_data.py`: normalize the
class/subject header cells, drop summary and empty-name rows, read the
authoritative score from the "Total Score" cell (0 when non-numeric),
derive the percentage.  The score is never recomputed from answers. -/
def parse_student_performance_csv (f : TotalsFile) : String × String × List StudentRow :=
  let cls := normalize_class_section f.class_row
  let subj := normalize_subject f.subject_row
  (cls, subj, (f.data_rows.filter keepStudentRow).map (mkStudentRow cls subj f.q_cols))

/-! ### Source extraction: skill taxonomy -/

/-- One skill row in the combined skills DataFrame. -/
structure SkillRow where
  skill_name : String
  questions_list : List ℕ
  section_perf : ℚ
  school_perf : ℚ
  class_section : String
  subject : String
deriving DecidableEq

/-- A raw data row of a skills CSV below the header row. -/
structure RawSkillRow where
  name : String
  questions : Cell
  section_cell : Cell
  school_cell : Cell
deriving DecidableEq

/-- A skills CSV file after the header row has been located. -/
structure SkillsFile where
  class_row : String
  subject_row : String
  data_rows : List RawSkillRow
deriving DecidableEq

/-- `parse_questions` inside `parse_skills_csv`: NaN gives `[]`;
otherwise split the text on commas, strip each token, keep the
all-digit tokens, and read them as integers.  (An integer-typed numeric
cell prints as its digits and yields that one number; a float-typed one
prints with a decimal point and yields nothing.) -/
def parse_questions (c : Cell) : List ℕ :=
  match c with
  | .nan => []
  | .num q => if q.den = 1 && 0 ≤ q.num then [q.num.toNat] else []
  | .str s =>
    (((splitOnChar ',' s.toList).map stripList).filter pyIsDigitStr).map digitsToNat

/-- `parse_skills_csv` from `load_data.py`: normalize the class/subject
header cells, drop rows whose skill name strips to empty, parse the
question list, and coerce the two performance columns to numbers with a
0 fallback. -/
def parse_skills_csv (f : SkillsFile) : String × String × List SkillRow :=
  let cls := normalize_class_section f.class_row
  let subj := normalize_subject f.subject_row
  (cls, subj,
    (f.data_rows.filter (fun r => !(stripList r.name.toList).isEmpty)).map (fun r =>
      { skill_name := r.name
        questions_list := parse_questions r.questions
        section_perf := coerceNum r.section_cell
        school_perf := coerceNum r.school_cell
        class_section := cls
        subject := subj }))

/-! ### Source extraction: question-level responses -/

/-- One row of a question-level CSV: the (spaceless) student name and
the 0/1 response values of the `Q<integer>` columns, in order. -/
structure QRow where
  student_name : String
  question_responses : List ℤ
deriving DecidableEq

/-- A question-level CSV file; class and subject come from the
`<class>_<subject>.csv` file name and are not normalized. -/
structure QFile where
  class_section : String
  subject : String
  data_rows : List QRow
deriving DecidableEq

/-! ### Dictionaries (Python `dict` as association lists) -/

/-- Python `d[k] = v`: overwrite the existing entry in place if the key
exists, else append a new entry. -/
def dictInsertG {α β : Type} [DecidableEq α] : List (α × β) → α → β → List (α × β)
  | [], k, v => [(k, v)]
  | p :: ps, k, v => if p.1 = k then (k, v) :: ps else p :: dictInsertG ps k v

/-- Python `d.get(k)` / `k in d` on an association list with unique keys. -/
def dictFind {α β : Type} [DecidableEq α] (d : List (α × β)) (k : α) : Option β :=
  (d.find? (fun p => p.1 = k)).map (·.2)

/-! ### Name matching -/

/-- The manual override table `NAME_SPELLING_OVERRIDES` (empty in the
source). -/
def NAME_SPELLING_OVERRIDES : List ((String × String × String) × String) := []

/-- `get_question_csv_name` from `load_data.py`. -/
def get_question_csv_name (normalized_existing_name class_section subject : String) :
    String :=
  match dictFind NAME_SPELLING_OVERRIDES (class_section, subject, normalized_existing_name) with
  | some n => n
  | none => normalized_existing_name

/-! ### Except-monad loops (Python `for` with possible exceptions) -/

/-- A `for` loop accumulating a value, where an iteration may raise. -/
def exceptFoldlM {ε α β : Type} (f : β → α → Except ε β) : β → List α → Except ε β
  | b, [] => .ok b
  | b, a :: as =>
    match f b a with
    | .error e => .error e
    | .ok b2 => exceptFoldlM f b2 as

/-- A `for` loop building a list, where an iteration may raise. -/
def exceptMapM {ε α β : Type} (f : α → Except ε β) : List α → Except ε (List β)
  | [] => .ok []
  | a :: as =>
    match f a with
    | .error e => .error e
    | .ok b =>
      match exceptMapM f as with
      | .error e => .error e
      | .ok bs => .ok (b :: bs)

/-! ### Skill performance derivation -/

/-- Python list indexing `l[i]`: nonnegative indices from the front,
negative indices from the back, `none` models `IndexError`. -/
def pyListGet (l : List ℤ) (i : ℤ) : Option ℤ :=
  if 0 ≤ i then l[i.toNat]?
  else if 0 ≤ i + (l.length : ℤ) then l[(i + (l.length : ℤ)).toNat]?
  else none

/-- One iteration of the inner loop of
`calculate_student_skill_performance`: `q_idx = q_num - 1`; the code
guards only `q_idx < len(question_responses)`, so `q_num = 0` gives
`q_idx = -1`, which Python resolves as the LAST element (or raises
`IndexError` on an empty list). -/
def responseStep (question_responses : List ℤ) (correct : ℕ) (q_num : ℕ) :
    Except String ℕ :=
  if ((q_num : ℤ) - 1) < (question_responses.length : ℤ) then
    match pyListGet question_responses ((q_num : ℤ) - 1) with
    | some v => .ok (if v = 1 then correct + 1 else correct)
    | none => .error "IndexError: list index out of range"
  else .ok correct

/-- The inner loop of `calculate_student_skill_performance`: count the
questions answered correctly. -/
def skillCorrectCount (question_responses : List ℤ) (skill_questions : List ℕ) :
    Except String ℕ :=
  exceptFoldlM (responseStep question_responses) 0 skill_questions

/-- One iteration of the outer loop of
`calculate_student_skill_performance`: filter the skill's questions to
the test length, skip the skill if nothing remains, else store
`round((correct / len(skill_questions)) * 100, 1)` under the skill
name. -/
def skillStep (question_responses : List ℤ) (total_questions : ℕ)
    (skill_perf : List (String × ℚ)) (skill : SkillPerformance) :
    Except String (List (String × ℚ)) :=
  if (skill.questions.filter (· ≤ total_questions)).isEmpty then .ok skill_perf
  else
    match skillCorrectCount question_responses
        (skill.questions.filter (· ≤ total_questions)) with
    | .error e => .error e
    | .ok correct =>
      .ok (dictInsertG skill_perf skill.skill_name
        (round1 (((correct : ℚ) /
          (((skill.questions.filter (· ≤ total_questions)).length : ℕ) : ℚ)) * 100)))

/-- `calculate_student_skill_performance` from `load_data.py`. -/
def calculate_student_skill_performance (question_responses : List ℤ)
    (skills : List SkillPerformance) (total_questions : ℕ) :
    Except String (List (String × ℚ)) :=
  exceptFoldlM (skillStep question_responses total_questions) [] skills

/-! ### Statistics -/

/-- Ascending sort, as `numpy`/`pandas` sort before taking order
statistics. -/
def sortRat (l : List ℚ) : List ℚ := List.insertionSort (· ≤ ·) l

/-- `pandas.Series.median()`: the middle order statistic for odd length,
the mean of the two middle order statistics for even length. -/
def pandasMedian (l : List ℚ) : ℚ :=
  if l.length = 0 then 0
  else if l.length % 2 = 1 then (sortRat l).getD (l.length / 2) 0
  else ((sortRat l).getD (l.length / 2 - 1) 0 + (sortRat l).getD (l.length / 2) 0) / 2

/-- `pandas.Series.quantile(p)` with the default linear interpolation. -/
def quantileLinear (l : List ℚ) (p : ℚ) : ℚ :=
  let s := sortRat l
  match s with
  | [] => 0
  | a :: _ =>
    let h : ℚ := ((l.length - 1 : ℕ) : ℚ) * p
    let lo := ⌊h⌋.toNat
    let x0 := s.getD lo a
    let x1 := s.getD (lo + 1) x0
    x0 + (h - (⌊h⌋ : ℚ)) * (x1 - x0)

/-- The statistics dictionary of `calculate_class_statistics`.  The
sample standard deviation (`std`) is irrational in general and is used
by no claim; it is the one field of the source dictionary not carried
here. -/
structure ClassStats where
  median : ℚ
  average : ℚ
  minv : ℚ
  maxv : ℚ
  q1 : ℚ
  q3 : ℚ
  count : ℕ
  below_median_count : ℕ
  below_60_count : ℕ
deriving DecidableEq

/-- The `(class_section, subject)` row mask used by
`calculate_class_statistics` and `build_class_report`. -/
def studentMask (class_section subject : String) (r : StudentRow) : Bool :=
  r.class_section = class_section && r.subject = subject

/-- The percentage series `student_df[mask]['percentage']` that
`calculate_class_statistics` works on. -/
def classData (student_rows : List StudentRow) (class_section subject : String) : List ℚ :=
  (student_rows.filter (studentMask class_section subject)).map (·.percentage)

/-- `calculate_class_statistics` from `load_data.py`; `none` models the
`return None` on an empty selection. -/
def calculate_class_statistics (student_rows : List StudentRow)
    (class_section subject : String) : Option ClassStats :=
  match classData student_rows class_section subject with
  | [] => none
  | d :: ds =>
    some
      { median := pandasMedian (d :: ds)
        average := round1 ((d :: ds).sum / (((d :: ds).length : ℕ) : ℚ))
        minv := ds.foldl min d
        maxv := ds.foldl max d
        q1 := quantileLinear (d :: ds) (1/4)
        q3 := quantileLinear (d :: ds) (3/4)
        count := (d :: ds).length
        below_median_count := ((d :: ds).filter (fun x => x < pandasMedian (d :: ds))).length
        below_60_count := ((d :: ds).filter (fun x => x < 60)).length }

/-! ### Report building -/

/-- The skills list of `build_class_report`: the `(class, subject)`
slice of the skills DataFrame turned into `SkillPerformance` values. -/
def buildSkills (skills_rows : List SkillRow) (class_section subject : String) :
    List SkillPerformance :=
  (skills_rows.filter (fun r =>
    r.class_section = class_section && r.subject = subject)).map (fun r =>
    { skill_name := r.skill_name
      questions := r.questions_list
      section_performance := r.section_perf
      school_performance := r.school_perf })

/-- The body of the per-student loop of `build_class_report`: look up
the student's question-level row by normalized name (after the spelling
override), trim the responses to the class's `total_questions`, and
derive the per-skill performance. -/
def mkStudentResult (q_level_df : Option (List QRow)) (skills : List SkillPerformance)
    (total_questions : ℕ) (class_section subject : String) (row : StudentRow) :
    Except String StudentResult :=
  match q_level_df with
  | none =>
    .ok { name := row.student_name, score := row.score
          total_questions := total_questions, percentage := row.percentage
          question_responses := [], skill_performance := [] }
  | some qdf =>
    match qdf.find? (fun qr => normalize_name qr.student_name =
        get_question_csv_name (normalize_name row.student_name) class_section subject) with
    | none =>
      .ok { name := row.student_name, score := row.score
            total_questions := total_questions, percentage := row.percentage
            question_responses := [], skill_performance := [] }
    | some q_row =>
      match calculate_student_skill_performance
          (q_row.question_responses.take total_questions) skills total_questions with
      | .error e => .error e
      | .ok skill_performance =>
        .ok { name := row.student_name, score := row.score
              total_questions := total_questions, percentage := row.percentage
              question_responses := q_row.question_responses.take total_questions
              skill_performance := skill_performance }

/-- `build_class_report` from `load_data.py`.  `.ok none` models the
`return None` for a pair with no student rows; `.error` models an
uncaught exception.  (A missing `(class, subject)` key — and the empty
question-level dict, which the source short-circuits on — both leave the
question-level lookup empty.)  `total_questions` is read from the FIRST
filtered row (`iloc[0]`). -/
def build_class_report (student_rows : List StudentRow) (skills_rows : List SkillRow)
    (class_section subject : String)
    (question_level_data : List ((String × String) × List QRow)) :
    Except String (Option ClassReport) :=
  match student_rows.filter (studentMask class_section subject) with
  | [] => .ok none
  | first :: rest =>
    match exceptMapM
        (mkStudentResult (dictFind question_level_data (class_section, subject))
          (buildSkills skills_rows class_section subject)
          first.total_questions class_section subject)
        (first :: rest) with
    | .error e => .error e
    | .ok students =>
      match calculate_class_statistics student_rows class_section subject with
      | none => .error "TypeError: stats is None"
      | some stats =>
        .ok (some
          { class_section := class_section
            subject := subject
            total_students := students.length
            total_questions := first.total_questions
            class_average := stats.average
            class_median := stats.median
            students := students
            skills := buildSkills skills_rows class_section subject })

/-! ### Directory loading -/

/-- `load_all_student_performance`: an empty directory raises
`FileNotFoundError`; files that fail to parse (`none`) are skipped with
a warning; zero successfully parsed files raises `ValueError`; otherwise
the per-file row lists are concatenated. -/
def load_all_student_performance (files : List (Option TotalsFile)) :
    Except String (List StudentRow) :=
  if files.isEmpty then .error "FileNotFoundError: No CSV files found"
  else if (files.filterMap id).isEmpty then
    .error "ValueError: No student performance data could be loaded"
  else .ok ((files.filterMap id).flatMap (fun f => (parse_student_performance_csv f).2.2))

/-- `load_all_skills_data`: same failure policy as the totals loader. -/
def load_all_skills_data (files : List (Option SkillsFile)) :
    Except String (List SkillRow) :=
  if files.isEmpty then .error "FileNotFoundError: No CSV files found"
  else if (files.filterMap id).isEmpty then
    .error "ValueError: No skills data could be loaded"
  else .ok ((files.filterMap id).flatMap (fun f => (parse_skills_csv f).2.2))

/-- `load_all_question_level_data`: a missing or empty directory returns
the EMPTY DICT with a warning (no exception), files that fail to parse
are skipped, and zero successfully parsed files also just returns the
empty dict — this loader never raises.  Duplicate `(class, subject)`
keys overwrite (last file wins). -/
def load_all_question_level_data (files : List (Option QFile)) :
    List ((String × String) × List QRow) :=
  (files.filterMap id).foldl
    (fun result f => dictInsertG result (f.class_section, f.subject) f.data_rows) []

/-! ### School-level assembly -/

/-- The full-match regex `^(\d+)-([A-Z])$` of `sort_class_sections`. -/
def matchClassExact (cs : List Char) : Option (ℕ × Char) :=
  let digits := cs.takeWhile isDigitChar
  if digits.isEmpty then none
  else
    match cs.dropWhile isDigitChar with
    | '-' :: c :: [] => if 'A' ≤ c && c ≤ 'Z' then some (digitsToNat digits, c) else none
    | _ => none

/-- The sort key of `sort_class_sections`: `(grade, letter)` on a match,
`(999, cls)` otherwise. -/
def classSortKey (cls : String) : ℕ × String :=
  match matchClassExact cls.toList with
  | some (g, c) => (g, String.mk [c])
  | none => (999, cls)

/-- Python tuple comparison on `(int, str)` keys. -/
def keyLe (a b : ℕ × String) : Bool :=
  a.1 < b.1 || (a.1 = b.1 && charListLe a.2.toList b.2.toList)

/-- `sort_class_sections` from `load_data.py`. -/
def sort_class_sections (classes : List String) : List String :=
  List.insertionSort (fun a b => keyLe (classSortKey a) (classSortKey b) = true) classes

/-- Python `sorted` on strings (lexicographic by code point). -/
def sortStrings (l : List String) : List String :=
  List.insertionSort (fun a b => charListLe a.toList b.toList = true) l

/-- `pandas.Series.unique()`: distinct values in first-appearance order. -/
def uniqueKeepFirst {α : Type} [DecidableEq α] (l : List α) : List α :=
  l.foldl (fun acc x => if x ∈ acc then acc else acc ++ [x]) []

/-- The class list of `build_school_data`:
`sort_class_sections(student_df['class_section'].unique().tolist())`. -/
def discoveredClasses (student_rows : List StudentRow) : List String :=
  sort_class_sections (uniqueKeepFirst (student_rows.map (·.class_section)))

/-- The subject list of `build_school_data`:
`sorted(student_df['subject'].unique().tolist())`. -/
def discoveredSubjects (student_rows : List StudentRow) : List String :=
  sortStrings (uniqueKeepFirst (student_rows.map (·.subject)))

/-- The `for class_section in classes: for subject in subjects:` cross
product of `build_school_data`. -/
def classSubjectPairs (student_rows : List StudentRow) : List (String × String) :=
  (discoveredClasses student_rows).flatMap
    (fun c => (discoveredSubjects student_rows).map (fun s => (c, s)))

/-- The report-building portion of `build_school_data`: iterate the
cross product of discovered classes and subjects and keep the reports
that come back non-`None`.  `.error` models an uncaught exception
aborting the run. -/
def build_school_reports (student_rows : List StudentRow) (skills_rows : List SkillRow)
    (question_level_data : List ((String × String) × List QRow)) :
    Except String (List ClassReport) :=
  match exceptMapM
      (fun p => build_class_report student_rows skills_rows p.1 p.2 question_level_data)
      (classSubjectPairs student_rows) with
  | .error e => .error e
  | .ok opts => .ok opts.reduceOption

/-- The data-loading and report-building pipeline of `build_school_data`
(the downstream grade/school aggregates are not needed by any claim). -/
def build_school_pipeline (tfiles : List (Option TotalsFile))
    (sfiles : List (Option SkillsFile)) (qfiles : List (Option QFile)) :
    Except String (List ClassReport) :=
  match load_all_student_performance tfiles with
  | .error e => .error e
  | .ok student_rows =>
    match load_all_skills_data sfiles with
    | .error e => .error e
    | .ok skills_rows =>
      build_school_reports student_rows skills_rows (load_all_question_level_data qfiles)

/-! ### Spec-side definitions (for refinement comparisons) -/

/-- Modelled from the spec: the standard statistical median of a sorted
list — the middle order statistic for odd length, the average of the two
middle order statistics for even length. -/
def medianOfSorted (s : List ℚ) : ℚ :=
  if s.length % 2 = 1 then s.getD (s.length / 2) 0
  else (s.getD (s.length / 2 - 1) 0 + s.getD (s.length / 2) 0) / 2

/-- Modelled from the claim's words (C3): filter the skill's question
list to numbers at most `total_questions`; `none` when the filtered list
is empty; otherwise round(100 · correct / count, 1), where question `q`
is correct when the response at 1-indexed position `q` exists and equals
1 (a position missing from or beyond the vector counts as not-correct). -/
def claimSkillValue (question_responses : List ℤ) (questions : List ℕ)
    (total_questions : ℕ) : Option ℚ :=
  let qs := questions.filter (· ≤ total_questions)
  if qs.isEmpty then none
  else
    let correct := (qs.filter (fun q =>
      1 ≤ q && question_responses.getD (q - 1) 0 = 1)).length
    some (round1 (100 * ((correct : ℚ) / (qs.length : ℚ))))

/-- The pure (exception-free) value of the skill loop, used to describe
`calculate_student_skill_performance` when every question number is at
least 1. -/
def pureSkillFold (responses : List ℤ) (tq : ℕ) (skills : List SkillPerformance)
    (d : List (String × ℚ)) : List (String × ℚ) :=
  skills.foldl (fun d sk =>
    match claimSkillValue responses sk.questions tq with
    | none => d
    | some v => dictInsertG d sk.skill_name v) d

/-! ### Concrete data used by witnesses and counterexamples -/

/-- A small totals file: one valid student, one answer-key row, one
student with a non-numeric "Total Score" cell. -/
def wTotals : TotalsFile :=
  { class_row := "3 A", subject_row := "English", q_cols := 2
    data_rows :=
      [{ name := "ADIL S GUPTA", total_score := .num 2, answers := [.num 1, .num 1] },
       { name := "Correct Answer", total_score := .str "AB", answers := [] },
       { name := "BOB", total_score := .str "oops", answers := [.num 0, .num 0] }] }

/-- The student rows `parse_student_performance_csv` extracts from
`wTotals`. -/
def wRows : List StudentRow :=
  [{ student_name := "ADIL S GUPTA", score := 2, total_questions := 2, percentage := 100,
     class_section := "3-A", subject := "English" },
   { student_name := "BOB", score := 0, total_questions := 2, percentage := 0,
     class_section := "3-A", subject := "English" }]

/-- A small skills file with a non-numeric "School Perf %" cell. -/
def wSkillsFile : SkillsFile :=
  { class_row := "3 A", subject_row := "English"
    data_rows := [{ name := "Reading", questions := .str "1,2,3",
                    section_cell := .num 70, school_cell := .str "N/A" }] }

/-- The skill rows `parse_skills_csv` extracts from `wSkillsFile`. -/
def wSkillRows : List SkillRow :=
  [{ skill_name := "Reading", questions_list := [1, 2, 3], section_perf := 70,
     school_perf := 0, class_section := "3-A", subject := "English" }]

/-- A question-level file with fixed-width padding: 4 response slots
for a 2-question test. -/
def wQData : List ((String × String) × List QRow) :=
  [(("3-A", "English"), [{ student_name := "ADILSGUPTA",
                            question_responses := [1, 1, 0, 0] }])]

/-- The class report built from `wRows`, `wSkillRows` and `wQData`. -/
def wReport : ClassReport :=
  { class_section := "3-A", subject := "English", total_students := 2,
    total_questions := 2, class_average := 50, class_median := 50,
    students :=
      [{ name := "ADIL S GUPTA", score := 2, total_questions := 2, percentage := 100,
         question_responses := [1, 1], skill_performance := [("Reading", 100)] },
       { name := "BOB", score := 0, total_questions := 2, percentage := 0,
         question_responses := [], skill_performance := [] }],
    skills := [{ skill_name := "Reading", questions := [1, 2, 3],
                 section_performance := 70, school_performance := 0 }] }

/-- Totals file declaring 2 questions for class 3-A English. -/
def cxTotalsA : TotalsFile :=
  { class_row := "3 A", subject_row := "English", q_cols := 2
    data_rows := [{ name := "ADIL S GUPTA", total_score := .num 2, answers := [] }] }

/-- A second totals file for the SAME (class, subject) declaring 3
questions. -/
def cxTotalsB : TotalsFile :=
  { class_row := "3-A", subject_row := "English", q_cols := 3
    data_rows := [{ name := "CARA", total_score := .num 3, answers := [] }] }

/-- The combined rows the loader produces from `cxTotalsA` and
`cxTotalsB`: CARA's parsed row carries `total_questions = 3`. -/
def cxRows : List StudentRow :=
  [{ student_name := "ADIL S GUPTA", score := 2, total_questions := 2, percentage := 100,
     class_section := "3-A", subject := "English" },
   { student_name := "CARA", score := 3, total_questions := 3, percentage := 100,
     class_section := "3-A", subject := "English" }]

/-- The report built from `cxRows`: every `StudentResult` gets the
FIRST row's `total_questions` (2), including CARA whose own row says 3. -/
def cxReport : ClassReport :=
  { class_section := "3-A", subject := "English", total_students := 2,
    total_questions := 2, class_average := 100, class_median := 100,
    students :=
      [{ name := "ADIL S GUPTA", score := 2, total_questions := 2, percentage := 100,
         question_responses := [], skill_performance := [] },
       { name := "CARA", score := 3, total_questions := 2, percentage := 100,
         question_responses := [], skill_performance := [] }],
    skills := [] }

/-- Rows giving the percentage series [50, 60, 70] for class 3-A
English: one student strictly below the median, one exactly at the
median (and exactly at the at-risk threshold 60), one above. -/
def statRows : List StudentRow :=
  [{ student_name := "A", score := 5, total_questions := 10, percentage := 50,
     class_section := "3-A", subject := "English" },
   { student_name := "B", score := 6, total_questions := 10, percentage := 60,
     class_section := "3-A", subject := "English" },
   { student_name := "C", score := 7, total_questions := 10, percentage := 70,
     class_section := "3-A", subject := "English" }]

/-- The statistics record for `statRows`. -/
def wStats : ClassStats :=
  { median := 60, average := 60, minv := 50, maxv := 70, q1 := 55, q3 := 65,
    count := 3, below_median_count := 1, below_60_count := 1 }

/-- A totals file with zero `Q<integer>` columns. -/
def zTotals : TotalsFile :=
  { class_row := "4 B", subject_row := "Science", q_cols := 0
    data_rows := [{ name := "DANA", total_score := .num 7, answers := [] }] }

/-! ## Helper lemmas -/

theorem dictFind_insert_self {α β : Type} [DecidableEq α] (d : List (α × β)) (k : α)
    (v : β) : dictFind (dictInsertG d k v) k = some v := by
  induction d with
  | nil => simp [dictInsertG, dictFind, List.find?]
  | cons p ps ih =>
    by_cases hp : p.1 = k
    · simp [dictInsertG, hp, dictFind, List.find?]
    · simpa [dictInsertG, hp, dictFind, List.find?] using ih

theorem dictFind_insert_ne {α β : Type} [DecidableEq α] (d : List (α × β)) {k k' : α}
    (v : β) (h : k' ≠ k) : dictFind (dictInsertG d k v) k' = dictFind d k' := by
  have hkk : ¬(k = k') := fun he => h he.symm
  induction d with
  | nil => simp [dictInsertG, dictFind, List.find?, hkk]
  | cons p ps ih =>
    by_cases hp : p.1 = k
    · have hp' : ¬(p.1 = k') := fun he => hkk (hp.symm.trans he)
      rw [show dictInsertG (p :: ps) k v = (k, v) :: ps from by simp [dictInsertG, hp]]
      simp [dictFind, List.find?, hp', hkk]
    · rw [show dictInsertG (p :: ps) k v = p :: dictInsertG ps k v from by
        simp [dictInsertG, hp]]
      by_cases hp' : p.1 = k'
      · simp [dictFind, List.find?, hp']
      · simpa [dictFind, List.find?, hp'] using ih

theorem exceptMapM_ok_length {ε α β : Type} {f : α → Except ε β} :
    ∀ {xs : List α} {ys : List β}, exceptMapM f xs = .ok ys → ys.length = xs.length := by
  intro xs
  induction xs with
  | nil => intro ys h; simp only [exceptMapM, Except.ok.injEq] at h; simp [← h]
  | cons a as ih =>
    intro ys h
    simp only [exceptMapM] at h
    cases hfa : f a with
    | error e => rw [hfa] at h; exact absurd h (by simp)
    | ok b =>
      rw [hfa] at h
      cases hrec : exceptMapM f as with
      | error e => rw [hrec] at h; exact absurd h (by simp)
      | ok bs =>
        rw [hrec] at h
        simp only [Except.ok.injEq] at h
        simp [← h, ih hrec]

theorem exceptMapM_ok_get {ε α β : Type} {f : α → Except ε β} :
    ∀ {xs : List α} {ys : List β}, exceptMapM f xs = .ok ys →
      ∀ i (hx : i < xs.length) (hy : i < ys.length),
        f (xs.get ⟨i, hx⟩) = .ok (ys.get ⟨i, hy⟩) := by
  intro xs
  induction xs with
  | nil => intro ys h i hx hy; exact absurd hx (by simp)
  | cons a as ih =>
    intro ys h i hx hy
    simp only [exceptMapM] at h
    cases hfa : f a with
    | error e => rw [hfa] at h; exact absurd h (by simp)
    | ok b =>
      rw [hfa] at h
      cases hrec : exceptMapM f as with
      | error e => rw [hrec] at h; exact absurd h (by simp)
      | ok bs =>
        rw [hrec] at h
        simp only [Except.ok.injEq] at h
        subst h
        cases i with
        | zero => simpa using hfa
        | succ j => exact ih hrec j (by simpa using hx) (by simpa using hy)

theorem exceptMapM_ok_mem_rev {ε α β : Type} {f : α → Except ε β} :
    ∀ {xs : List α} {ys : List β}, exceptMapM f xs = .ok ys →
      ∀ y ∈ ys, ∃ x ∈ xs, f x = .ok y := by
  intro xs
  induction xs with
  | nil =>
    intro ys h y hy
    simp only [exceptMapM, Except.ok.injEq] at h
    rw [← h] at hy
    exact absurd hy (by simp)
  | cons a as ih =>
    intro ys h y hy
    simp only [exceptMapM] at h
    cases hfa : f a with
    | error e => rw [hfa] at h; exact absurd h (by simp)
    | ok b =>
      rw [hfa] at h
      cases hrec : exceptMapM f as with
      | error e => rw [hrec] at h; exact absurd h (by simp)
      | ok bs =>
        rw [hrec] at h
        simp only [Except.ok.injEq] at h
        subst h
        rcases List.mem_cons.mp hy with hb | hbs
        · exact ⟨a, by simp, hb ▸ hfa⟩
        · obtain ⟨x, hx, hfx⟩ := ih hrec y hbs
          exact ⟨x, by simp [hx], hfx⟩

theorem exceptMapM_ok_mem_fwd {ε α β : Type} {f : α → Except ε β} :
    ∀ {xs : List α} {ys : List β}, exceptMapM f xs = .ok ys →
      ∀ x ∈ xs, ∃ y ∈ ys, f x = .ok y := by
  intro xs
  induction xs with
  | nil => intro ys h x hx; exact absurd hx (by simp)
  | cons a as ih =>
    intro ys h x hx
    simp only [exceptMapM] at h
    cases hfa : f a with
    | error e => rw [hfa] at h; exact absurd h (by simp)
    | ok b =>
      rw [hfa] at h
      cases hrec : exceptMapM f as with
      | error e => rw [hrec] at h; exact absurd h (by simp)
      | ok bs =>
        rw [hrec] at h
        simp only [Except.ok.injEq] at h
        subst h
        rcases List.mem_cons.mp hx with hax | hxs
        · exact ⟨b, by simp, hax ▸ hfa⟩
        · obtain ⟨y, hy, hfy⟩ := ih hrec x hxs
          exact ⟨y, by simp [hy], hfy⟩

theorem exceptMapM_ok_map {ε α β γ : Type} {f : α → Except ε β} {g : β → γ} {h : α → γ}
    (hgh : ∀ x y, f x = .ok y → g y = h x) :
    ∀ {xs : List α} {ys : List β}, exceptMapM f xs = .ok ys → ys.map g = xs.map h := by
  intro xs
  induction xs with
  | nil => intro ys hok; simp only [exceptMapM, Except.ok.injEq] at hok; simp [← hok]
  | cons a as ih =>
    intro ys hok
    simp only [exceptMapM] at hok
    cases hfa : f a with
    | error e => rw [hfa] at hok; exact absurd hok (by simp)
    | ok b =>
      rw [hfa] at hok
      cases hrec : exceptMapM f as with
      | error e => rw [hrec] at hok; exact absurd hok (by simp)
      | ok bs =>
        rw [hrec] at hok
        simp only [Except.ok.injEq] at hok
        subst hok
        simp [hgh a b hfa, ih hrec]

theorem length_filter_lt_add_filter_ge (l : List ℚ) (t : ℚ) :
    (l.filter (fun x => x < t)).length + (l.filter (fun x => t ≤ x)).length = l.length := by
  induction l with
  | nil => rfl
  | cons x xs ih =>
    rcases lt_or_le x t with hx | hx
    · rw [List.filter_cons_of_pos (by simpa using hx),
        List.filter_cons_of_neg (by simpa using not_le.mpr hx)]
      simp only [List.length_cons]
      omega
    · rw [List.filter_cons_of_neg (by simpa using not_lt.mpr hx),
        List.filter_cons_of_pos (by simpa using hx)]
      simp only [List.length_cons]
      omega

theorem uniqueKeepFirst_mem {α : Type} [DecidableEq α] (l : List α) (a : α) :
    a ∈ uniqueKeepFirst l ↔ a ∈ l := by
  have key : ∀ (xs : List α) (acc : List α),
      a ∈ xs.foldl (fun acc x => if x ∈ acc then acc else acc ++ [x]) acc ↔
        a ∈ acc ∨ a ∈ xs := by
    intro xs
    induction xs with
    | nil => intro acc; simp
    | cons x rest ih =>
      intro acc
      simp only [List.foldl_cons]
      by_cases hx : x ∈ acc
      · rw [if_pos hx, ih]
        constructor
        · rintro (h | h)
          · exact Or.inl h
          · exact Or.inr (List.mem_cons_of_mem x h)
        · rintro (h | h)
          · exact Or.inl h
          · rcases List.mem_cons.mp h with rfl | h
            · exact Or.inl hx
            · exact Or.inr h
      · rw [if_neg hx, ih]
        constructor
        · rintro (h | h)
          · rcases List.mem_append.mp h with h | h
            · exact Or.inl h
            · exact Or.inr (List.mem_cons.mpr (Or.inl (List.mem_singleton.mp h)))
          · exact Or.inr (List.mem_cons_of_mem x h)
        · rintro (h | h)
          · exact Or.inl (List.mem_append.mpr (Or.inl h))
          · rcases List.mem_cons.mp h with rfl | h
            · exact Or.inl (List.mem_append.mpr (Or.inr (by simp)))
            · exact Or.inr h
  simpa [uniqueKeepFirst] using key l []

theorem sort_class_sections_mem (cs : List String) (c : String) :
    c ∈ sort_class_sections cs ↔ c ∈ cs :=
  (List.perm_insertionSort _ cs).mem_iff

theorem sortStrings_mem (l : List String) (s : String) :
    s ∈ sortStrings l ↔ s ∈ l :=
  (List.perm_insertionSort _ l).mem_iff

theorem studentMask_eq_true {c s : String} {r : StudentRow} :
    studentMask c s r = true ↔ r.class_section = c ∧ r.subject = s := by
  unfold studentMask
  rw [Bool.and_eq_true, decide_eq_true_eq, decide_eq_true_eq]

theorem parse_student_rows (f : TotalsFile) :
    (parse_student_performance_csv f).2.2 =
      (f.data_rows.filter keepStudentRow).map
        (mkStudentRow (normalize_class_section f.class_row)
          (normalize_subject f.subject_row) f.q_cols) := rfl

theorem mkStudentRow_percentage (cls subj : String) (tq : ℕ) (r : RawStudentRow) :
    (mkStudentRow cls subj tq r).percentage =
      scorePercentage (mkStudentRow cls subj tq r).score
        (mkStudentRow cls subj tq r).total_questions := rfl

theorem load_student_rows {tfiles : List (Option TotalsFile)} {rows : List StudentRow}
    (h : load_all_student_performance tfiles = .ok rows) :
    rows = (tfiles.filterMap id).flatMap (fun f => (parse_student_performance_csv f).2.2) := by
  unfold load_all_student_performance at h
  by_cases h1 : tfiles.isEmpty
  · rw [if_pos h1] at h; exact absurd h (by simp)
  · rw [if_neg h1] at h
    by_cases h2 : (tfiles.filterMap id).isEmpty
    · rw [if_pos h2] at h; exact absurd h (by simp)
    · rw [if_neg h2] at h
      simp only [Except.ok.injEq] at h
      exact h.symm

theorem load_row_percentage {tfiles : List (Option TotalsFile)} {rows : List StudentRow}
    (h : load_all_student_performance tfiles = .ok rows) :
    ∀ r ∈ rows, r.percentage = scorePercentage r.score r.total_questions := by
  intro r hr
  rw [load_student_rows h] at hr
  rcases List.mem_flatMap.mp hr with ⟨f, _, hrf⟩
  rw [parse_student_rows] at hrf
  rcases List.mem_map.mp hrf with ⟨raw, _, hmk⟩
  rw [← hmk]
  exact mkStudentRow_percentage _ _ _ _

theorem mkStudentResult_ok_fields {qdf : Option (List QRow)} {skills : List SkillPerformance}
    {tq : ℕ} {c s : String} {row : StudentRow} {st : StudentResult}
    (h : mkStudentResult qdf skills tq c s row = .ok st) :
    st.name = row.student_name ∧ st.score = row.score ∧ st.total_questions = tq ∧
      st.percentage = row.percentage ∧ st.question_responses.length ≤ tq := by
  unfold mkStudentResult at h
  split at h
  · simp only [Except.ok.injEq] at h
    subst h
    exact ⟨rfl, rfl, rfl, rfl, by simp⟩
  · split at h
    · simp only [Except.ok.injEq] at h
      subst h
      exact ⟨rfl, rfl, rfl, rfl, by simp⟩
    · split at h
      · exact absurd h (by simp)
      · simp only [Except.ok.injEq] at h
        subst h
        refine ⟨rfl, rfl, rfl, rfl, ?_⟩
        simp [List.length_take]

theorem calculate_class_statistics_some {student_rows : List StudentRow} {c s : String}
    {stats : ClassStats} (h : calculate_class_statistics student_rows c s = some stats) :
    classData student_rows c s ≠ [] ∧
    stats.median = pandasMedian (classData student_rows c s) ∧
    stats.average = round1 ((classData student_rows c s).sum /
      (((classData student_rows c s).length : ℕ) : ℚ)) ∧
    stats.count = (classData student_rows c s).length ∧
    stats.below_median_count =
      ((classData student_rows c s).filter (fun x => x < stats.median)).length ∧
    stats.below_60_count =
      ((classData student_rows c s).filter (fun x => x < 60)).length := by
  unfold calculate_class_statistics at h
  split at h
  · exact absurd h (by simp)
  · rename_i d ds heq
    simp only [Option.some.injEq] at h
    subst h
    rw [heq]
    exact ⟨by simp, rfl, rfl, rfl, rfl, rfl⟩

theorem calculate_class_statistics_none {student_rows : List StudentRow} {c s : String}
    (h : classData student_rows c s = []) :
    calculate_class_statistics student_rows c s = none := by
  unfold calculate_class_statistics
  split
  · rfl
  · rename_i d ds heq
    rw [h] at heq
    exact absurd heq (by simp)

theorem build_class_report_ok_some {student_rows : List StudentRow}
    {skills_rows : List SkillRow} {c s : String}
    {qdata : List ((String × String) × List QRow)} {report : ClassReport}
    (h : build_class_report student_rows skills_rows c s qdata = .ok (some report)) :
    ∃ (first : StudentRow) (rest : List StudentRow) (stats : ClassStats),
      student_rows.filter (studentMask c s) = first :: rest ∧
      calculate_class_statistics student_rows c s = some stats ∧
      exceptMapM (mkStudentResult (dictFind qdata (c, s)) (buildSkills skills_rows c s)
          first.total_questions c s) (first :: rest) = .ok report.students ∧
      report.class_section = c ∧ report.subject = s ∧
      report.total_questions = first.total_questions ∧
      report.class_median = stats.median ∧ report.class_average = stats.average ∧
      report.total_students = report.students.length ∧
      report.skills = buildSkills skills_rows c s := by
  unfold build_class_report at h
  split at h
  · exact absurd h (by simp)
  · rename_i first rest heq
    split at h
    · exact absurd h (by simp)
    · rename_i students hmap
      split at h
      · exact absurd h (by simp)
      · rename_i stats hstats
        simp only [Except.ok.injEq, Option.some.injEq] at h
        subst h
        exact ⟨first, rest, stats, heq, hstats, hmap, rfl, rfl, rfl, rfl, rfl, rfl, rfl⟩

theorem build_class_report_empty {student_rows : List StudentRow}
    {skills_rows : List SkillRow} {c s : String}
    {qdata : List ((String × String) × List QRow)}
    (h : student_rows.filter (studentMask c s) = []) :
    build_class_report student_rows skills_rows c s qdata = .ok none := by
  unfold build_class_report
  split
  · rfl
  · rename_i first rest heq
    rw [h] at heq
    exact absurd heq (by simp)

theorem build_class_report_ok_nonempty {student_rows : List StudentRow}
    {skills_rows : List SkillRow} {c s : String}
    {qdata : List ((String × String) × List QRow)} {opt : Option ClassReport}
    (h : build_class_report student_rows skills_rows c s qdata = .ok opt)
    (hne : student_rows.filter (studentMask c s) ≠ []) :
    ∃ report, opt = some report ∧ report.class_section = c ∧ report.subject = s := by
  unfold build_class_report at h
  split at h
  · exact absurd (by assumption) hne
  · split at h
    · exact absurd h (by simp)
    · split at h
      · exact absurd h (by simp)
      · simp only [Except.ok.injEq] at h
        exact ⟨_, h.symm, rfl, rfl⟩

/-! ### Character-class lemmas for the class/section regex -/

theorem isSecSep_not_digit {c : Char} (h : isSecSep c = true) : isDigitChar c = false := by
  unfold isSecSep isPySpace at h
  simp only [Bool.or_eq_true, decide_eq_true_eq] at h
  rcases h with (((((h | h) | h) | h) | h) | h) | h <;> subst h <;> decide

theorem isAsciiLetter_not_digit {c : Char} (h : isAsciiLetter c = true) :
    isDigitChar c = false := by
  unfold isAsciiLetter at h
  simp only [Bool.or_eq_true, Bool.and_eq_true, decide_eq_true_eq] at h
  unfold isDigitChar
  simp only [Bool.and_eq_false_iff, decide_eq_false_iff_not]
  right
  intro hle
  rcases h with ⟨h1, _⟩ | ⟨h1, _⟩
  · exact absurd (le_trans h1 hle) (by decide)
  · exact absurd (le_trans h1 hle) (by decide)

theorem isAsciiLetter_not_sep {c : Char} (h : isAsciiLetter c = true) :
    isSecSep c = false := by
  unfold isAsciiLetter at h
  simp only [Bool.or_eq_true, Bool.and_eq_true, decide_eq_true_eq] at h
  have hA : ('0' : Char) ≤ c := by
    rcases h with ⟨h1, _⟩ | ⟨h1, _⟩
    · exact le_trans (by decide) h1
    · exact le_trans (by decide) h1
  unfold isSecSep isPySpace
  simp only [Bool.or_eq_false_iff, decide_eq_false_iff_not]
  refine ⟨⟨⟨⟨⟨⟨?_, ?_⟩, ?_⟩, ?_⟩, ?_⟩, ?_⟩, ?_⟩ <;>
    · intro he
      subst he
      exact absurd hA (by decide)

theorem takeWhile_append_all {p : Char → Bool} :
    ∀ (d rest : List Char), (∀ x ∈ d, p x = true) →
      (∀ y, rest.head? = some y → p y = false) →
      (d ++ rest).takeWhile p = d ∧ (d ++ rest).dropWhile p = rest := by
  intro d
  induction d with
  | nil =>
    intro rest _ hrest
    cases rest with
    | nil => exact ⟨rfl, rfl⟩
    | cons y ys =>
      refine ⟨?_, ?_⟩
      · simp [List.takeWhile_cons, hrest y rfl]
      · simp [List.dropWhile_cons, hrest y rfl]
  | cons a as ih =>
    intro rest hall hrest
    have ha : p a = true := hall a (by simp)
    obtain ⟨ht, hd⟩ := ih rest (fun x hx => hall x (by simp [hx])) hrest
    refine ⟨?_, ?_⟩
    · simp only [List.cons_append, List.takeWhile_cons, ha, if_true]
      rw [ht]
    · simp only [List.cons_append, List.dropWhile_cons, ha, if_true]
      rw [hd]

theorem matchGradeSection_of_shape {d m rest : List Char} {c : Char}
    (hd : d ≠ []) (hdig : ∀ x ∈ d, isDigitChar x = true)
    (hm : ∀ x ∈ m, isSecSep x = true) (hc : isAsciiLetter c = true) :
    matchGradeSection (d ++ m ++ c :: rest) = some (d, c) := by
  have hhead : ∀ y, (m ++ c :: rest).head? = some y → isDigitChar y = false := by
    intro y hy
    cases m with
    | nil =>
      simp only [List.nil_append, List.head?_cons, Option.some.injEq] at hy
      subst hy
      exact isAsciiLetter_not_digit hc
    | cons m0 ms =>
      simp only [List.cons_append, List.head?_cons, Option.some.injEq] at hy
      subst hy
      exact isSecSep_not_digit (hm m0 (by simp))
  obtain ⟨ht1, hd1⟩ := takeWhile_append_all d (m ++ c :: rest) hdig hhead
  have h2 : ∀ y, (c :: rest).head? = some y → isSecSep y = false := by
    intro y hy
    simp only [List.head?_cons, Option.some.injEq] at hy
    subst hy
    exact isAsciiLetter_not_sep hc
  obtain ⟨_, hd2⟩ := takeWhile_append_all m (c :: rest) hm h2
  rw [List.append_assoc]
  unfold matchGradeSection
  rw [ht1, hd1, hd2]
  simp [List.isEmpty_iff, hd, hc]

theorem matchGradeSection_some_shape {cs d : List Char} {c : Char}
    (h : matchGradeSection cs = some (d, c)) :
    ∃ m rest, cs = d ++ m ++ c :: rest ∧ d ≠ [] ∧ (∀ x ∈ d, isDigitChar x = true) ∧
      (∀ x ∈ m, isSecSep x = true) ∧ isAsciiLetter c = true := by
  unfold matchGradeSection at h
  by_cases hemp : (cs.takeWhile isDigitChar).isEmpty
  · rw [if_pos hemp] at h
    exact absurd h (by simp)
  · rw [if_neg hemp] at h
    cases hdrop : (cs.dropWhile isDigitChar).dropWhile isSecSep with
    | nil => rw [hdrop] at h; exact absurd h (by simp)
    | cons c0 rest0 =>
      rw [hdrop] at h
      dsimp only at h
      by_cases hlet : isAsciiLetter c0 = true
      · rw [if_pos hlet] at h
        simp only [Option.some.injEq, Prod.mk.injEq] at h
        obtain ⟨hdq, hcq⟩ := h
        subst hcq
        refine ⟨(cs.dropWhile isDigitChar).takeWhile isSecSep, rest0, ?_, ?_, ?_, ?_, hlet⟩
        · conv_lhs => rw [← List.takeWhile_append_dropWhile (p := isDigitChar) (l := cs)]
          rw [hdq]
          conv_lhs => rw [← List.takeWhile_append_dropWhile (p := isSecSep)
            (l := cs.dropWhile isDigitChar)]
          rw [hdrop, ← List.append_assoc]
        · intro he
          rw [hdq, he] at hemp
          simp at hemp
        · intro x hx
          rw [← hdq] at hx
          exact List.mem_takeWhile_imp hx
        · intro x hx
          exact List.mem_takeWhile_imp hx
      · rw [if_neg hlet] at h
        exact absurd h (by simp)

/-! ### Lemmas for skill-performance derivation -/

theorem responseStep_ok {responses : List ℤ} {q : ℕ} (h : 1 ≤ q) (correct : ℕ) :
    responseStep responses correct q =
      .ok (if (1 ≤ q && responses.getD (q - 1) 0 = 1) then correct + 1 else correct) := by
  unfold responseStep
  have h1 : (1 : ℤ) ≤ (q : ℤ) := by exact_mod_cast h
  by_cases hlt : ((q : ℤ) - 1) < (responses.length : ℤ)
  · rw [if_pos hlt]
    have h0 : (0 : ℤ) ≤ (q : ℤ) - 1 := by omega
    have hidx : ((q : ℤ) - 1).toNat = q - 1 := by omega
    have hq1 : q - 1 < responses.length := by omega
    rw [pyListGet, if_pos h0, hidx, List.getElem?_eq_getElem hq1]
    dsimp only
    by_cases hv : responses[q - 1] = 1
    · rw [if_pos hv, if_pos (by simp [List.getElem?_eq_getElem hq1, hv, h])]
    · rw [if_neg hv, if_neg (by simp [List.getElem?_eq_getElem hq1, hv])]
  · rw [if_neg hlt]
    have hge : responses.length ≤ q - 1 := by omega
    rw [List.getD_eq_default _ _ hge]
    simp

theorem skillCorrectCount_eq {responses : List ℤ} :
    ∀ {qs : List ℕ}, (∀ q ∈ qs, 1 ≤ q) →
      skillCorrectCount responses qs =
        .ok ((qs.filter (fun q => 1 ≤ q && responses.getD (q - 1) 0 = 1)).length) := by
  have key : ∀ (qs : List ℕ) (acc : ℕ), (∀ q ∈ qs, 1 ≤ q) →
      exceptFoldlM (responseStep responses) acc qs =
        .ok (acc + (qs.filter (fun q => 1 ≤ q && responses.getD (q - 1) 0 = 1)).length) := by
    intro qs
    induction qs with
    | nil => intro acc _; simp [exceptFoldlM]
    | cons q rest ih =>
      intro acc h
      simp only [exceptFoldlM]
      rw [responseStep_ok (h q (by simp)) acc]
      by_cases hq : (1 ≤ q && responses.getD (q - 1) 0 = 1) = true
      · rw [if_pos hq]
        dsimp only
        rw [ih (acc + 1) (fun x hx => h x (by simp [hx])), List.filter_cons, if_pos hq]
        simp only [List.length_cons, Except.ok.injEq]
        omega
      · rw [if_neg hq]
        dsimp only
        rw [ih acc (fun x hx => h x (by simp [hx])), List.filter_cons, if_neg hq]
  intro qs h
  unfold skillCorrectCount
  simpa using key qs 0 h

theorem skillStep_ok {responses : List ℤ} {tq : ℕ} {sk : SkillPerformance}
    (h : ∀ q ∈ sk.questions, 1 ≤ q) (d : List (String × ℚ)) :
    skillStep responses tq d sk =
      .ok (match claimSkillValue responses sk.questions tq with
           | none => d
           | some v => dictInsertG d sk.skill_name v) := by
  unfold skillStep claimSkillValue
  by_cases hemp : (sk.questions.filter (· ≤ tq)).isEmpty
  · rw [if_pos hemp, if_pos hemp]
  · rw [if_neg hemp, if_neg hemp,
      skillCorrectCount_eq (fun q hq => h q (List.mem_of_mem_filter hq))]
    dsimp only
    rw [mul_comm]

theorem calculate_eq_pure {responses : List ℤ} {tq : ℕ} :
    ∀ (skills : List SkillPerformance) (d : List (String × ℚ)),
      (∀ sk ∈ skills, ∀ q ∈ sk.questions, 1 ≤ q) →
      exceptFoldlM (skillStep responses tq) d skills =
        .ok (pureSkillFold responses tq skills d) := by
  intro skills
  induction skills with
  | nil => intro d _; rfl
  | cons sk rest ih =>
    intro d h
    simp only [exceptFoldlM]
    rw [skillStep_ok (h sk (by simp)) d]
    dsimp only
    unfold pureSkillFold
    rw [List.foldl_cons]
    exact ih _ (fun s hs q hq => h s (by simp [hs]) q hq)

theorem pureSkillFold_preserve {responses : List ℤ} {tq : ℕ} :
    ∀ (skills : List SkillPerformance) (d : List (String × ℚ)) (k : String),
      (∀ sk ∈ skills, sk.skill_name ≠ k) →
      dictFind (pureSkillFold responses tq skills d) k = dictFind d k := by
  intro skills
  induction skills with
  | nil => intro d k _; rfl
  | cons sk rest ih =>
    intro d k h
    unfold pureSkillFold
    rw [List.foldl_cons]
    have step : dictFind
        (pureSkillFold responses tq rest
          (match claimSkillValue responses sk.questions tq with
           | none => d
           | some v => dictInsertG d sk.skill_name v)) k =
        dictFind (match claimSkillValue responses sk.questions tq with
           | none => d
           | some v => dictInsertG d sk.skill_name v) k :=
      ih _ k (fun s hs => h s (by simp [hs]))
    rw [show (rest.foldl (fun d sk =>
        match claimSkillValue responses sk.questions tq with
        | none => d
        | some v => dictInsertG d sk.skill_name v)
        (match claimSkillValue responses sk.questions tq with
         | none => d
         | some v => dictInsertG d sk.skill_name v)) =
        pureSkillFold responses tq rest
          (match claimSkillValue responses sk.questions tq with
           | none => d
           | some v => dictInsertG d sk.skill_name v) from rfl, step]
    cases claimSkillValue responses sk.questions tq with
    | none => rfl
    | some v => exact dictFind_insert_ne d v (fun he => h sk (by simp) he.symm)

theorem pureSkillFold_lookup {responses : List ℤ} {tq : ℕ} :
    ∀ (skills : List SkillPerformance) (d : List (String × ℚ)),
      (skills.map (fun sk => sk.skill_name)).Nodup →
      (∀ sk ∈ skills, dictFind d sk.skill_name = none) →
      ∀ sk ∈ skills, dictFind (pureSkillFold responses tq skills d) sk.skill_name =
        claimSkillValue responses sk.questions tq := by
  intro skills
  induction skills with
  | nil => intro d _ _ sk hsk; exact absurd hsk (by simp)
  | cons sk0 rest ih =>
    intro d hnodup hfresh sk hsk
    have hnd : (∀ x ∈ rest, ¬x.skill_name = sk0.skill_name) ∧
        (rest.map (fun sk => sk.skill_name)).Nodup := by simpa using hnodup
    unfold pureSkillFold
    rw [List.foldl_cons]
    rw [show (rest.foldl (fun d sk =>
        match claimSkillValue responses sk.questions tq with
        | none => d
        | some v => dictInsertG d sk.skill_name v)
        (match claimSkillValue responses sk0.questions tq with
         | none => d
         | some v => dictInsertG d sk0.skill_name v)) =
        pureSkillFold responses tq rest
          (match claimSkillValue responses sk0.questions tq with
           | none => d
           | some v => dictInsertG d sk0.skill_name v) from rfl]
    rcases List.mem_cons.mp hsk with rfl | hmem
    · rw [pureSkillFold_preserve rest _ sk.skill_name (fun s hs he => hnd.1 s hs he)]
      cases hval : claimSkillValue responses sk.questions tq with
      | none => exact hfresh sk (by simp)
      | some v => exact dictFind_insert_self d sk.skill_name v
    · refine ih _ hnd.2 ?_ sk hmem
      intro s hs
      cases hval : claimSkillValue responses sk0.questions tq with
      | none => exact hfresh s (by simp [hs])
      | some v =>
        rw [dictFind_insert_ne d v (fun he => hnd.1 s hs he)]
        exact hfresh s (by simp [hs])

theorem pandasMedian_eq_medianOfSorted {l : List ℚ} (hne : l ≠ []) {s : List ℚ}
    (hsort : List.Sorted (· ≤ ·) s) (hperm : List.Perm l s) :
    pandasMedian l = medianOfSorted s := by
  have hsr : sortRat l = s :=
    List.eq_of_perm_of_sorted ((List.perm_insertionSort _ l).trans hperm)
      (List.sorted_insertionSort _ l) hsort
  have hlen : l.length = s.length := hperm.length_eq
  have hn0 : ¬s.length = 0 := by
    rw [← hlen]
    simpa using hne
  unfold pandasMedian medianOfSorted
  rw [hsr, hlen, if_neg hn0]

/-! ## Claim theorems -/

/-- C9: when a totals file contains zero `Q<integer>` columns
(`total_questions = 0`), every parsed student row gets percentage 0
rather than a division-by-zero error — the percentage computation is
total, with the zero case handled by the explicit
`if total_questions > 0 ... else 0.0` guard. -/
theorem C9_zero_questions_percentage (f : TotalsFile) (h : f.q_cols = 0) :
    ∀ r ∈ (parse_student_performance_csv f).2.2, r.percentage = 0 := by
  intro r hr
  rw [parse_student_rows] at hr
  rcases List.mem_map.mp hr with ⟨raw, _, hmk⟩
  rw [← hmk]
  simp [mkStudentRow, scorePercentage, h]

/-- Witness for C9: a concrete zero-question totals file. -/
theorem C9_witness : zTotals.q_cols = 0 ∧
    ∀ r ∈ (parse_student_performance_csv zTotals).2.2, r.percentage = 0 :=
  ⟨rfl, C9_zero_questions_percentage zTotals rfl⟩

/-- C10: both threshold counts of `calculate_class_statistics` use
strict inequality: `below_median_count` counts exactly the percentages
strictly below the median and `below_60_count` exactly those strictly
below 60; the complementary counts (≥ median, ≥ 60, which include the
values exactly at the thresholds) make up the rest of `count`. -/
theorem C10_strict_threshold_counts {student_rows : List StudentRow} {c s : String}
    {stats : ClassStats} (h : calculate_class_statistics student_rows c s = some stats) :
    stats.below_median_count =
      ((classData student_rows c s).filter (fun x => x < stats.median)).length ∧
    stats.below_60_count =
      ((classData student_rows c s).filter (fun x => x < 60)).length ∧
    stats.below_median_count +
      ((classData student_rows c s).filter (fun x => stats.median ≤ x)).length =
      stats.count ∧
    stats.below_60_count +
      ((classData student_rows c s).filter (fun x => (60 : ℚ) ≤ x)).length =
      stats.count := by
  obtain ⟨hne, hmed, havg, hcount, hbm, hb60⟩ := calculate_class_statistics_some h
  refine ⟨hbm, hb60, ?_, ?_⟩
  · rw [hbm, hcount]
    exact length_filter_lt_add_filter_ge _ _
  · rw [hb60, hcount]
    exact length_filter_lt_add_filter_ge _ _

/-- Witness for C10: percentages [50, 60, 70] give median 60,
`below_median_count = 1` (the student exactly at the median is not
counted) and `below_60_count = 1` (the student exactly at 60 is not
flagged). -/
theorem C10_witness :
    calculate_class_statistics statRows "3-A" "English" = some wStats ∧
    (wStats.below_median_count =
      ((classData statRows "3-A" "English").filter (fun x => x < wStats.median)).length ∧
     wStats.below_60_count =
      ((classData statRows "3-A" "English").filter (fun x => x < 60)).length ∧
     wStats.below_median_count +
      ((classData statRows "3-A" "English").filter
        (fun x => wStats.median ≤ x)).length = wStats.count ∧
     wStats.below_60_count +
      ((classData statRows "3-A" "English").filter
        (fun x => (60 : ℚ) ≤ x)).length = wStats.count) ∧
    wStats.median = 60 ∧ wStats.below_median_count = 1 ∧ wStats.below_60_count = 1 :=
  ⟨by decide, C10_strict_threshold_counts (by decide), by decide, by decide, by decide⟩

/-- C8: a non-numeric "Total Score" cell yields score 0 for that
student and a non-numeric "Section Perf %" / "School Perf %" cell
yields 0 for that field; in both cases the row still appears in the
parse output (parsing does not abort — both parsers are total and keep
the row). -/
theorem C8_nonnumeric_defaults_zero :
    (∀ (f : TotalsFile) (r : RawStudentRow), r ∈ f.data_rows → keepStudentRow r = true →
      r.total_score.toIntOpt = none →
      ∃ pr ∈ (parse_student_performance_csv f).2.2,
        pr.student_name = pyStrip r.name ∧ pr.score = 0) ∧
    (∀ (f : SkillsFile) (r : RawSkillRow), r ∈ f.data_rows →
      (stripList r.name.toList).isEmpty = false →
      ∃ sr ∈ (parse_skills_csv f).2.2, sr.skill_name = r.name ∧
        (r.section_cell.toNumOpt = none → sr.section_perf = 0) ∧
        (r.school_cell.toNumOpt = none → sr.school_perf = 0)) := by
  constructor
  · intro f r hmem hkeep hnone
    rw [parse_student_rows]
    refine ⟨mkStudentRow (normalize_class_section f.class_row)
        (normalize_subject f.subject_row) f.q_cols r,
      List.mem_map_of_mem _ (List.mem_filter.mpr ⟨hmem, hkeep⟩), rfl, ?_⟩
    simp [mkStudentRow, tryIntCell, hnone]
  · intro f r hmem hname
    refine ⟨_, List.mem_map_of_mem _ (List.mem_filter.mpr ⟨hmem, by rw [hname]; rfl⟩),
      rfl, ?_, ?_⟩
    · intro hn
      simp [coerceNum, hn]
    · intro hn
      simp [coerceNum, hn]

/-- Witness for C8: "oops" as a Total Score and "N/A" as a School
Perf %. -/
theorem C8_witness :
    (∃ pr ∈ (parse_student_performance_csv wTotals).2.2,
      pr.student_name = pyStrip "BOB" ∧ pr.score = 0) ∧
    (∃ sr ∈ (parse_skills_csv wSkillsFile).2.2, sr.skill_name = "Reading" ∧
      ((Cell.str "N/A").toNumOpt = none → sr.school_perf = 0)) := by
  constructor
  · exact C8_nonnumeric_defaults_zero.1 wTotals
      { name := "BOB", total_score := .str "oops", answers := [.num 0, .num 0] }
      (by decide) (by decide) (by decide)
  · obtain ⟨sr, hmem, hname, _, hschool⟩ := C8_nonnumeric_defaults_zero.2 wSkillsFile
      { name := "Reading", questions := .str "1,2,3",
        section_cell := .num 70, school_cell := .str "N/A" }
      (by decide) (by decide)
    exact ⟨sr, hmem, hname, hschool⟩

/-- C6: in every emitted report, each student's response-vector length
never exceeds the student's `total_questions` — excess fixed-width
padding from the question-level source is truncated by
`full_responses[:total_questions]`. -/
theorem C6_responses_within_total {student_rows : List StudentRow}
    {skills_rows : List SkillRow} {c s : String}
    {qdata : List ((String × String) × List QRow)} {report : ClassReport}
    (h : build_class_report student_rows skills_rows c s qdata = .ok (some report)) :
    ∀ st ∈ report.students, st.question_responses.length ≤ st.total_questions := by
  obtain ⟨first, rest, stats, hfilter, hstats, hmap, _⟩ := build_class_report_ok_some h
  intro st hst
  obtain ⟨row, _, hrow⟩ := exceptMapM_ok_mem_rev hmap st hst
  obtain ⟨_, _, htq, _, hlen⟩ := mkStudentResult_ok_fields hrow
  rw [htq]
  exact hlen

/-- Witness for C6: a 4-slot fixed-width response row against a
2-question test is truncated to length 2. -/
theorem C6_witness :
    build_class_report wRows wSkillRows "3-A" "English" wQData = .ok (some wReport) ∧
    (∀ st ∈ wReport.students, st.question_responses.length ≤ st.total_questions) ∧
    wReport.students[0]?.map (fun st => st.question_responses) = some [1, 1] :=
  ⟨by decide,
    @C6_responses_within_total wRows wSkillRows "3-A" "English" wQData wReport (by decide),
    by decide⟩

/-- C2: every emitted report's `class_median` is the standard
statistical median of exactly its students' percentages — for any
sorted permutation of those percentages it equals the middle order
statistic (odd count) or the average of the two middle order statistics
(even count). -/
theorem C2_class_median {student_rows : List StudentRow} {skills_rows : List SkillRow}
    {c s : String} {qdata : List ((String × String) × List QRow)} {report : ClassReport}
    (hbuild : build_class_report student_rows skills_rows c s qdata = .ok (some report))
    {sorted : List ℚ} (hsort : List.Sorted (· ≤ ·) sorted)
    (hperm : List.Perm (report.students.map (fun st => st.percentage)) sorted) :
    report.class_median = medianOfSorted sorted := by
  obtain ⟨first, rest, stats, hfilter, hstats, hmap, _, _, _, hmed, _⟩ :=
    build_class_report_ok_some hbuild
  obtain ⟨hne, hmedian, _⟩ := calculate_class_statistics_some hstats
  have hmapeq : report.students.map (fun st => st.percentage) =
      (first :: rest).map (fun r => r.percentage) :=
    exceptMapM_ok_map (fun x y hxy => (mkStudentResult_ok_fields hxy).2.2.2.1) hmap
  have hdata : classData student_rows c s = (first :: rest).map (fun r => r.percentage) := by
    unfold classData
    rw [hfilter]
  rw [hmapeq] at hperm
  rw [hmed, hmedian, hdata]
  exact pandasMedian_eq_medianOfSorted (by simp) hsort hperm

/-- Witness for C2: percentages [100, 0], sorted permutation [0, 100],
median 50. -/
theorem C2_witness :
    build_class_report wRows wSkillRows "3-A" "English" wQData = .ok (some wReport) ∧
    List.Sorted (· ≤ ·) [(0 : ℚ), 100] ∧
    List.Perm (wReport.students.map (fun st => st.percentage)) [(0 : ℚ), 100] ∧
    wReport.class_median = medianOfSorted [(0 : ℚ), 100] ∧
    medianOfSorted [(0 : ℚ), 100] = 50 :=
  ⟨by decide, by decide, by decide,
    @C2_class_median wRows wSkillRows "3-A" "English" wQData wReport (by decide)
      [(0 : ℚ), 100] (by decide) (by decide),
    by decide⟩

/-- C3 counterexample: the parser admits question number 0
(`"0".isdigit()` is true), `0 <= total_questions` always passes the
filter, and then `q_idx = -1` is PYTHON NEGATIVE INDEXING: the code
reads the LAST response (here 1, so the skill scores 100.0), while the
claim's formula — a position missing from the vector counts as
not-correct — yields 0.0. -/
theorem C3_counterexample :
    calculate_student_skill_performance [0, 1]
      [{ skill_name := "S", questions := [0], section_performance := 0,
         school_performance := 0 }] 2 = .ok [("S", 100)] ∧
    claimSkillValue [0, 1] [0] 2 = some 0 ∧ (100 : ℚ) ≠ 0 :=
  ⟨by decide, by decide, by decide⟩

/-- C3 (amended): for skills with pairwise-distinct names ALL of whose
question numbers are at least 1, `calculate_student_skill_performance`
raises nothing and returns a mapping in which each skill is absent when
its filtered question list (numbers ≤ total_questions) is empty and
otherwise carries round(100·correct/count, 1), where a position missing
from or beyond the vector counts as not-correct
(`claimSkillValue`). -/
theorem C3_skill_performance (question_responses : List ℤ)
    (skills : List SkillPerformance) (total_questions : ℕ)
    (hpos : ∀ sk ∈ skills, ∀ q ∈ sk.questions, 1 ≤ q)
    (hnodup : (skills.map (fun sk => sk.skill_name)).Nodup) :
    ∃ m, calculate_student_skill_performance question_responses skills total_questions =
        .ok m ∧
      ∀ sk ∈ skills, dictFind m sk.skill_name =
        claimSkillValue question_responses sk.questions total_questions := by
  refine ⟨pureSkillFold question_responses total_questions skills [], ?_, ?_⟩
  · unfold calculate_student_skill_performance
    exact calculate_eq_pure skills [] hpos
  · exact pureSkillFold_lookup skills [] hnodup (fun sk _ => rfl)

/-- Witness for C3: the claim's scenario — a skill with question list
[1,2,3] against total_questions 2 and responses [1,0] scores 50.0. -/
theorem C3_witness :
    ∃ m, calculate_student_skill_performance [1, 0]
        [⟨"Sk", [1, 2, 3], 0, 0⟩] 2 = .ok m ∧
      dictFind m "Sk" = some 50 := by
  obtain ⟨m, hm, hv⟩ := C3_skill_performance [1, 0]
    [⟨"Sk", [1, 2, 3], 0, 0⟩] 2 (by decide) (by decide)
  refine ⟨m, hm, ?_⟩
  rw [hv ⟨"Sk", [1, 2, 3], 0, 0⟩ (by simp)]
  decide

/-- C7: `normalize_class_section` returns `"<grade>-<SECTION>"` (the
leading digit run, a hyphen, the following letter uppercased) whenever
the stripped input is a nonempty digit run, then any run of
whitespace/hyphens, then a letter (and anything after); otherwise it
returns the stripped input unchanged.  The function is total, so it
never raises. -/
theorem C7_normalize_class_section (raw : String) :
    (∀ (d m : List Char) (c : Char) (rest : List Char),
      stripList raw.toList = d ++ m ++ c :: rest → d ≠ [] →
      (∀ x ∈ d, isDigitChar x = true) → (∀ x ∈ m, isSecSep x = true) →
      isAsciiLetter c = true →
      normalize_class_section raw = String.mk (d ++ '-' :: [c.toUpper])) ∧
    ((∀ (d m : List Char) (c : Char) (rest : List Char),
        ¬(stripList raw.toList = d ++ m ++ c :: rest ∧ d ≠ [] ∧
          (∀ x ∈ d, isDigitChar x = true) ∧ (∀ x ∈ m, isSecSep x = true) ∧
          isAsciiLetter c = true)) →
      normalize_class_section raw = pyStrip raw) := by
  constructor
  · intro d m c rest heq hd hdig hm hc
    unfold normalize_class_section
    rw [heq, matchGradeSection_of_shape hd hdig hm hc]
  · intro hno
    unfold normalize_class_section
    cases hmatch : matchGradeSection (stripList raw.toList) with
    | none => rfl
    | some dc =>
      obtain ⟨d, c⟩ := dc
      obtain ⟨m, rest, heq, hd, hdig, hm, hc⟩ := matchGradeSection_some_shape hmatch
      exact absurd ⟨heq, hd, hdig, hm, hc⟩ (hno d m c rest)

/-- Witness for C7: "3 A" normalizes to "3-A"; "Nursery" (no leading
digits) is returned stripped and unchanged. -/
theorem C7_witness :
    normalize_class_section "3 A" = "3-A" ∧
    normalize_class_section "Nursery" = "Nursery" := by
  constructor
  · have h := (C7_normalize_class_section "3 A").1 ['3'] [' '] 'A' []
      (by decide) (by decide) (by decide) (by decide) (by decide)
    rw [h]
    decide
  · have hno : ∀ (d m : List Char) (c : Char) (rest : List Char),
        ¬(stripList "Nursery".toList = d ++ m ++ c :: rest ∧ d ≠ [] ∧
          (∀ x ∈ d, isDigitChar x = true) ∧ (∀ x ∈ m, isSecSep x = true) ∧
          isAsciiLetter c = true) := by
      intro d m c rest hcon
      obtain ⟨heq, hd, hdig, -, -⟩ := hcon
      cases d with
      | nil => exact hd rfl
      | cons x d2 =>
        have h2 : stripList "Nursery".toList =
            'N' :: ('u' :: 'r' :: 's' :: 'e' :: 'r' :: 'y' :: []) := by decide
        rw [h2] at heq
        simp only [List.cons_append] at heq
        have hx : 'N' = x := ((List.cons.injEq _ _ _ _).mp heq).1
        have hdx := hdig x (by simp)
        rw [← hx] at hdx
        exact absurd hdx (by decide)
    have h := (C7_normalize_class_section "Nursery").2 hno
    rw [h]
    decide

/-- C1 counterexample: two totals files for the same (class, subject)
with different `Q<integer>` column counts.  `build_class_report` takes
`total_questions` from the FIRST filtered row (`iloc[0]`), so CARA's
parsed row says `total_questions = 3` but her emitted `StudentResult`
says 2 — the claim's "same total_questions" fails. -/
theorem C1_counterexample :
    load_all_student_performance [some cxTotalsA, some cxTotalsB] = .ok cxRows ∧
    build_class_report cxRows [] "3-A" "English" [] = .ok (some cxReport) ∧
    cxRows[1]?.map (fun r => (r.student_name, r.total_questions)) = some ("CARA", 3) ∧
    cxReport.students[1]?.map (fun st => (st.name, st.total_questions)) =
      some ("CARA", 2) ∧
    (3 : ℕ) ≠ 2 :=
  ⟨by decide, by decide, by decide, by decide, by decide⟩

/-- C1 (amended): for rows coming from the totals loader, each emitted
`StudentResult` carries, position by position, the parsed row's exact
score and percentage (never recomputed from answers), the percentage
obeys round(score/total_questions·100, 1) with a 0 fallback for
total_questions = 0 (`scorePercentage`), and `total_questions` is the
FIRST filtered row's value — which equals the row's own value exactly
when the row agrees with the first row (always the case when one file
covers the pair). -/
theorem C1_score_fidelity {tfiles : List (Option TotalsFile)}
    {student_rows : List StudentRow} {skills_rows : List SkillRow} {c s : String}
    {qdata : List ((String × String) × List QRow)} {report : ClassReport}
    (hload : load_all_student_performance tfiles = .ok student_rows)
    (hbuild : build_class_report student_rows skills_rows c s qdata = .ok (some report)) :
    report.students.length = (student_rows.filter (studentMask c s)).length ∧
    ∀ i (hi : i < report.students.length)
      (hj : i < (student_rows.filter (studentMask c s)).length),
      (report.students.get ⟨i, hi⟩).score =
        ((student_rows.filter (studentMask c s)).get ⟨i, hj⟩).score ∧
      (report.students.get ⟨i, hi⟩).percentage =
        ((student_rows.filter (studentMask c s)).get ⟨i, hj⟩).percentage ∧
      ((student_rows.filter (studentMask c s)).get ⟨i, hj⟩).percentage =
        scorePercentage ((student_rows.filter (studentMask c s)).get ⟨i, hj⟩).score
          ((student_rows.filter (studentMask c s)).get ⟨i, hj⟩).total_questions ∧
      (0 < ((student_rows.filter (studentMask c s)).get ⟨i, hj⟩).total_questions →
        ((student_rows.filter (studentMask c s)).get ⟨i, hj⟩).percentage =
          round1 (((((student_rows.filter (studentMask c s)).get ⟨i, hj⟩).score : ℚ) /
            ((((student_rows.filter (studentMask c s)).get ⟨i, hj⟩).total_questions : ℕ) : ℚ))
            * 100)) ∧
      (report.students.get ⟨i, hi⟩).total_questions = report.total_questions ∧
      (((student_rows.filter (studentMask c s)).get ⟨i, hj⟩).total_questions =
          report.total_questions →
        (report.students.get ⟨i, hi⟩).total_questions =
          ((student_rows.filter (studentMask c s)).get ⟨i, hj⟩).total_questions) := by
  obtain ⟨first, rest, stats, hfilter, hstats, hmap, _, _, htqr, _⟩ :=
    build_class_report_ok_some hbuild
  rw [hfilter]
  have hlen := exceptMapM_ok_length hmap
  refine ⟨hlen, ?_⟩
  · intro i hi hj
    have hget := exceptMapM_ok_get hmap i hj hi
    obtain ⟨hname, hscore, htq, hpct, _⟩ := mkStudentResult_ok_fields hget
    have hmem : (first :: rest).get ⟨i, hj⟩ ∈ student_rows := by
      have hsub : (first :: rest).Sublist student_rows := by
        rw [← hfilter]
        exact List.filter_sublist _
      exact hsub.subset (List.get_mem (first :: rest) i hj)
    have hrowpct := load_row_percentage hload _ hmem
    refine ⟨hscore, hpct, hrowpct, ?_, ?_, ?_⟩
    · intro hpos
      rw [hrowpct]
      unfold scorePercentage
      rw [if_pos hpos]
    · rw [htq, htqr]
    · intro he
      rw [htq, ← htqr, he]

/-- Witness for C1 (amended): the loaded rows of `wTotals` and the
report built from them, with the concrete score/percentage fidelity
visible at index 0. -/
theorem C1_witness :
    load_all_student_performance [some wTotals] = .ok wRows ∧
    build_class_report wRows wSkillRows "3-A" "English" wQData = .ok (some wReport) ∧
    wReport.students.length = (wRows.filter (studentMask "3-A" "English")).length ∧
    wReport.students[0]?.map (fun st => (st.score, st.percentage)) = some (2, 100) ∧
    wRows[0]?.map (fun r => (r.score, r.percentage)) = some (2, 100) :=
  ⟨by decide, by decide,
    (@C1_score_fidelity [some wTotals] wRows wSkillRows "3-A" "English" wQData wReport
      (by decide) (by decide)).1,
    by decide, by decide⟩

/-- C4: for a completed run, the set of (class, subject) pairs of the
emitted reports equals the set of pairs present in the parsed totals
rows; and for any pair with zero student rows, `build_class_report`
returns `None` without raising. -/
theorem C4_coverage {student_rows : List StudentRow} {skills_rows : List SkillRow}
    {qdata : List ((String × String) × List QRow)} {reports : List ClassReport}
    (h : build_school_reports student_rows skills_rows qdata = .ok reports) :
    (∀ c s, (∃ r ∈ reports, r.class_section = c ∧ r.subject = s) ↔
      ∃ row ∈ student_rows, row.class_section = c ∧ row.subject = s) ∧
    (∀ c s, (¬∃ row ∈ student_rows, row.class_section = c ∧ row.subject = s) →
      build_class_report student_rows skills_rows c s qdata = .ok none) := by
  unfold build_school_reports at h
  constructor
  · intro c s
    split at h
    · exact absurd h (by simp)
    · rename_i opts hmapM
      simp only [Except.ok.injEq] at h
      subst h
      constructor
      · rintro ⟨r, hr, hrc, hrs⟩
        have hsome : some r ∈ opts := List.reduceOption_mem_iff.mp hr
        obtain ⟨p, _, hfp⟩ := exceptMapM_ok_mem_rev hmapM (some r) hsome
        obtain ⟨first, rest, _, hfilter, _, _, hcls, hsubj, _⟩ :=
          build_class_report_ok_some hfp
        have hfm : first ∈ student_rows.filter (studentMask p.1 p.2) := by
          rw [hfilter]
          simp
        obtain ⟨h1, h2⟩ := studentMask_eq_true.mp (List.mem_filter.mp hfm).2
        refine ⟨first, List.mem_of_mem_filter hfm, ?_, ?_⟩
        · rw [h1, ← hcls, hrc]
        · rw [h2, ← hsubj, hrs]
      · rintro ⟨row, hrow, hrc, hrs⟩
        have hc : c ∈ discoveredClasses student_rows := by
          unfold discoveredClasses
          rw [sort_class_sections_mem, uniqueKeepFirst_mem]
          exact List.mem_map.mpr ⟨row, hrow, hrc⟩
        have hs : s ∈ discoveredSubjects student_rows := by
          unfold discoveredSubjects
          rw [sortStrings_mem, uniqueKeepFirst_mem]
          exact List.mem_map.mpr ⟨row, hrow, hrs⟩
        have hp : (c, s) ∈ classSubjectPairs student_rows := by
          unfold classSubjectPairs
          rw [List.mem_flatMap]
          exact ⟨c, hc, List.mem_map.mpr ⟨s, hs, rfl⟩⟩
        obtain ⟨opt, hopt, hbuild⟩ := exceptMapM_ok_mem_fwd hmapM (c, s) hp
        have hne : student_rows.filter (studentMask c s) ≠ [] := by
          intro hnil
          have hin : row ∈ student_rows.filter (studentMask c s) :=
            List.mem_filter.mpr ⟨hrow, studentMask_eq_true.mpr ⟨hrc, hrs⟩⟩
          rw [hnil] at hin
          exact absurd hin (by simp)
        obtain ⟨rep, hrep, hrc2, hrs2⟩ := build_class_report_ok_nonempty hbuild hne
        refine ⟨rep, ?_, hrc2, hrs2⟩
        exact List.reduceOption_mem_iff.mpr (hrep ▸ hopt)
  · intro c s hnone
    apply build_class_report_empty
    rw [List.filter_eq_nil_iff]
    intro row hrow
    intro hmask
    obtain ⟨h1, h2⟩ := studentMask_eq_true.mp hmask
    exact hnone ⟨row, hrow, h1, h2⟩

/-- Witness for C4: the pair present in `wRows` is reported; a pair
with zero rows yields `.ok none` (no report, no exception). -/
theorem C4_witness :
    build_school_reports wRows wSkillRows wQData = .ok [wReport] ∧
    ((∃ r ∈ [wReport], r.class_section = "3-A" ∧ r.subject = "English") ↔
      ∃ row ∈ wRows, row.class_section = "3-A" ∧ row.subject = "English") ∧
    build_class_report wRows wSkillRows "4-B" "Maths" wQData = .ok none := by
  have h := @C4_coverage wRows wSkillRows wQData [wReport] (by decide)
  exact ⟨by decide, h.1 "3-A" "English", h.2 "4-B" "Maths" (by decide)⟩

/-- C5 counterexample: the totals and skills loaders abort on an empty
or fully-failing directory, but the question-level loader returns the
EMPTY DICT and the run continues — contradicting the claim that each of
the three directories aborts the run in those cases. -/
theorem C5_counterexample :
    load_all_question_level_data [] = [] ∧
    load_all_question_level_data [none] = [] ∧
    load_all_student_performance ([] : List (Option TotalsFile)) =
      .error "FileNotFoundError: No CSV files found" ∧
    load_all_skills_data [(none : Option SkillsFile)] =
      .error "ValueError: No skills data could be loaded" :=
  ⟨rfl, rfl, rfl, rfl⟩

/-- C5 (amended): for the totals and skills directories, a file that
fails to parse is skipped (the result depends only on the successfully
parsed files) and an empty directory or zero successful parses raises
an error; the question-level loader also skips failing files but NEVER
raises — an empty or fully-failing directory just yields the empty
mapping. -/
theorem C5_loader_failure_policy :
    (∀ tfiles : List (Option TotalsFile),
      (tfiles = [] → load_all_student_performance tfiles =
        .error "FileNotFoundError: No CSV files found") ∧
      (tfiles ≠ [] → tfiles.filterMap id = [] → load_all_student_performance tfiles =
        .error "ValueError: No student performance data could be loaded") ∧
      (tfiles.filterMap id ≠ [] → load_all_student_performance tfiles =
        .ok ((tfiles.filterMap id).flatMap
          (fun f => (parse_student_performance_csv f).2.2)))) ∧
    (∀ sfiles : List (Option SkillsFile),
      (sfiles = [] → load_all_skills_data sfiles =
        .error "FileNotFoundError: No CSV files found") ∧
      (sfiles ≠ [] → sfiles.filterMap id = [] → load_all_skills_data sfiles =
        .error "ValueError: No skills data could be loaded") ∧
      (sfiles.filterMap id ≠ [] → load_all_skills_data sfiles =
        .ok ((sfiles.filterMap id).flatMap (fun f => (parse_skills_csv f).2.2)))) ∧
    (∀ qfiles : List (Option QFile),
      load_all_question_level_data qfiles =
        (qfiles.filterMap id).foldl
          (fun result f => dictInsertG result (f.class_section, f.subject) f.data_rows)
          []) := by
  refine ⟨?_, ?_, fun _ => rfl⟩
  · intro tfiles
    refine ⟨?_, ?_, ?_⟩
    · intro h
      subst h
      rfl
    · intro h1 h2
      unfold load_all_student_performance
      rw [if_neg (by simpa [List.isEmpty_iff] using h1),
        if_pos (by simpa [List.isEmpty_iff] using h2)]
    · intro h2
      have h1 : tfiles ≠ [] := by
        intro he
        subst he
        exact h2 rfl
      unfold load_all_student_performance
      rw [if_neg (by simpa [List.isEmpty_iff] using h1),
        if_neg (by simpa [List.isEmpty_iff] using h2)]
  · intro sfiles
    refine ⟨?_, ?_, ?_⟩
    · intro h
      subst h
      rfl
    · intro h1 h2
      unfold load_all_skills_data
      rw [if_neg (by simpa [List.isEmpty_iff] using h1),
        if_pos (by simpa [List.isEmpty_iff] using h2)]
    · intro h2
      have h1 : sfiles ≠ [] := by
        intro he
        subst he
        exact h2 rfl
      unfold load_all_skills_data
      rw [if_neg (by simpa [List.isEmpty_iff] using h1),
        if_neg (by simpa [List.isEmpty_iff] using h2)]

/-- Witness for C5 (amended): a directory with one good and one bad
totals file loads the good file's rows; an empty totals directory
raises; a fully-failing question-level directory yields the empty
mapping. -/
theorem C5_witness :
    load_all_student_performance [some wTotals, none] = .ok wRows ∧
    load_all_student_performance ([] : List (Option TotalsFile)) =
      .error "FileNotFoundError: No CSV files found" ∧
    load_all_question_level_data [(none : Option QFile)] = [] := by
  refine ⟨?_, ?_, ?_⟩
  · have h := (C5_loader_failure_policy.1 [some wTotals, none]).2.2 (by decide)
    rw [h]
    decide
  · exact (C5_loader_failure_policy.1 []).1 rfl
  · rw [C5_loader_failure_policy.2.2 [(none : Option QFile)]]
    rfl
